import Mathlib

/-!
Verification of the TLE acquisition-and-ingestion pipeline
(`src/backend/TLE_Fetch.py` and `src/backend/data_input.py`).

The Python source is shallowly embedded: pure helpers become Lean
functions on `List Char` / `ℚ` / `ℤ`; network and database effects are
driven by explicit oracles (scripted response lists, fault scripts) and
the filesystem / store are explicit association lists.  External library
calls (`sgp4.Satrec`, `requests`, the SQLAlchemy executor) are modelled as
oracle parameters; everything written in the repository itself is
translated line by line.
-/

namespace SGEmbed

/-! ## Characters and Python-style string helpers -/

/-- Whitespace characters recognised by the Python split and strip
functions (the subset that can occur in the pipeline data). -/
def isWsC (c : Char) : Bool :=
  c = ' ' || c = '\t' || c = '\n' || c = '\r' || c = '\x0b' || c = '\x0c'

/-- ASCII digit, the characters matched by the `\d` class of the NORAD
regular expression `1 (\d+)` on this data. -/
def isDigitC (c : Char) : Bool :=
  c = '0' || c = '1' || c = '2' || c = '3' || c = '4' ||
  c = '5' || c = '6' || c = '7' || c = '8' || c = '9'

/-- Python `str.strip()` on a list of characters. -/
def pyStrip (l : List Char) : List Char :=
  ((l.dropWhile isWsC).reverse.dropWhile isWsC).reverse

/-- Auxiliary for `pySplit`: accumulate the current (reversed) token. -/
def pySplitAux : List Char → List Char → List (List Char)
  | [], acc => if acc.isEmpty then [] else [acc.reverse]
  | c :: cs, acc =>
    if isWsC c then
      if acc.isEmpty then pySplitAux cs [] else acc.reverse :: pySplitAux cs []
    else
      pySplitAux cs (c :: acc)

/-- Python `str.split()` (no argument): split on whitespace runs,
dropping empty tokens. -/
def pySplit (l : List Char) : List (List Char) :=
  pySplitAux l []

/-- Auxiliary for `splitNl`: Python newline splitting, which keeps empty
segments. -/
def splitNlAux : List Char → List Char → List (List Char)
  | [], acc => [acc.reverse]
  | c :: cs, acc =>
    if c = '\n' then acc.reverse :: splitNlAux cs [] else splitNlAux cs (c :: acc)

/-- Python newline splitting of a text into its lines. -/
def splitNl (l : List Char) : List (List Char) :=
  splitNlAux l []

/-- The Python `needle in hay` substring test. -/
def containsSub (needle hay : List Char) : Bool :=
  hay.tails.any (fun t => needle.isPrefixOf t)

/-- Numeric value of a list of ASCII digits (Python `int` on the digit
string captured by the regex). -/
def natOfDigits (l : List Char) : Nat :=
  l.foldl (fun n c => 10 * n + (c.toNat - '0'.toNat)) 0

/-! ## UTC datetime and the Julian-date conversion (`jday_to_datetime`,
`src/backend/data_input.py` lines 58–65) -/

/-- A UTC calendar instant at second precision, the observable content of
the `datetime.datetime` produced by `jday_to_datetime`. -/
structure DateTimeUTC where
  year : Int
  month : Int
  day : Int
  hour : Int
  minute : Int
  second : Int
  deriving DecidableEq, Repr

/-- Civil date from a day count relative to 1970-01-01 (the standard
days-to-civil algorithm behind the `datetime.utcfromtimestamp` calendar
arithmetic). -/
def civilFromDays (z0 : Int) : Int × Int × Int :=
  let z := z0 + 719468
  let era : Int := z.fdiv 146097
  let doe : Int := z - era * 146097
  let yoe : Int := (doe - doe.fdiv 1460 + doe.fdiv 36524 - doe.fdiv 146096).fdiv 365
  let y : Int := yoe + era * 400
  let doy : Int := doe - (365 * yoe + yoe.fdiv 4 - yoe.fdiv 100)
  let mp : Int := (5 * doy + 2).fdiv 153
  let d : Int := doy - (153 * mp + 2).fdiv 5 + 1
  let m : Int := mp + (if mp < 10 then 3 else -9)
  (y + (if m ≤ 2 then 1 else 0), m, d)

/-- `datetime.utcfromtimestamp` restricted to whole seconds. -/
def utcFromTimestamp (t : Int) : DateTimeUTC :=
  let days := t.fdiv 86400
  let secs := t - days * 86400
  let ymd := civilFromDays days
  { year := ymd.1, month := ymd.2.1, day := ymd.2.2,
    hour := secs.fdiv 3600, minute := (secs.fdiv 60) % 60, second := secs % 60 }

/-- The Julian date of the Unix epoch, `JD_UNIX_EPOCH = 2440587.5`. -/
def jdUnixEpoch : ℚ := (4881175 : ℚ) / 2

/-- The exact unix-seconds value `(jd_full - 2440587.5) * 86400.0`
computed by `jday_to_datetime`. -/
def unixSecondsOfJd (jd fr : ℚ) : ℚ :=
  ((jd + fr) - jdUnixEpoch) * 86400

/-- `jday_to_datetime(jd, fr)` (`data_input.py` lines 58–65): convert a
Julian date (integer + fraction) to a UTC datetime, observed at second
precision. -/
def jday_to_datetime (jd fr : ℚ) : DateTimeUTC :=
  utcFromTimestamp ⌊unixSecondsOfJd jd fr⌋

/-! ## NORAD-id extraction

Two components extract the object id from TLE line 1:
* the deriver uses the compiled NORAD regular expression, literal 1 and a space then a captured digit run, and
  `int(match.group(1))` (`data_input.py` lines 56, 96–101);
* the partitioner uses `line1.split()[1][:5]` (`TLE_Fetch.py` line 188).
-/

/-- Regex search of line1: leftmost occurrence of the literal
`'1'`, a single space, then a maximal nonempty run of digits; returns
the captured digit run. -/
def noradSearch : List Char → Option (List Char)
  | '1' :: ' ' :: c :: rest =>
    if isDigitC c then some (c :: rest.takeWhile isDigitC)
    else noradSearch (' ' :: c :: rest)
  | _ :: rest => noradSearch rest
  | [] => none

/-- The deriver id extraction: regex capture converted with `int`. -/
def deriverId (line1 : List Char) : Option Nat :=
  (noradSearch line1).map natOfDigits

/-- The partitioner id extraction `line1.split()[1][:5]` (a string, used
as dictionary key and file name). -/
def partitionerId (line1 : List Char) : Option (List Char) :=
  ((pySplit line1)[1]?).map (List.take 5)

/-- Modelled from the spec: Extract CatalogObjectId from a fixed
character range of line1 — the catalog-number columns of a TLE line 1
are character positions 2–6 (0-based). -/
def specFixedRangeId (line1 : List Char) : List Char :=
  (line1.drop 2).take 5

/-- Shape of the line-1 inputs the catalog service actually emits: the
two characters `1` and space, followed by exactly five digits and then a non-digit (the classification
column) or end of line. -/
def goodLine1 (l : List Char) : Bool :=
  ['1', ' '].isPrefixOf l &&
  decide (((l.drop 2).take 5).length = 5) &&
  ((l.drop 2).take 5).all isDigitC &&
  ((l.drop 7).take 1).all (fun c => !isDigitC c)

/-! ## OrbitalStateDeriver: per-pair processing in `parse_tle_file`
(`data_input.py` lines 92–146) -/

/-- Oracle for the external `sgp4` library calls on one line pair:
`Satrec.twoline2rv` (which may raise), its epoch fields `jdsatepoch` /
`jdsatepochF`, and the `sat.sgp4(jd, fr)` propagation outcome. -/
structure SatOracle where
  parseRaises : Bool
  jd : ℚ
  fr : ℚ
  sgpError : Nat
  pos : ℚ × ℚ × ℚ
  vel : ℚ × ℚ × ℚ

/-- Python `round(q, d)` on the model rationals (tie behaviour is
irrelevant to every claim below). -/
def roundTo (q : ℚ) (d : Nat) : ℚ :=
  (round (q * 10 ^ d) : ℤ) / (10 ^ d : ℚ)

/-- One row yielded by `parse_tle_file` (the dictionary of lines
130–143). -/
structure TleRow where
  norad_id : Nat
  epoch : DateTimeUTC
  tle_line1 : List Char
  tle_line2 : List Char
  altitude_km : Option ℚ
  x : Option ℚ
  y : Option ℚ
  z : Option ℚ
  velocity_kms : Option ℚ
  vx : Option ℚ
  vy : Option ℚ
  vz : Option ℚ
  deriving DecidableEq

/-- Processing of one stripped line pair inside the loop of
`parse_tle_file`.  `sqrtFn` stands for `math.sqrt`; `existing` is the
`existing_tles` set (`[]` models a missing/empty set, which is falsy in
`if existing_tles and ...`).  Returns the yielded row (`none` when the
pair is skipped) and whether `sat.sgp4` was invoked. -/
def processPair (o : SatOracle) (sqrtFn : ℚ → ℚ)
    (existing : List (Nat × DateTimeUTC)) (line1 line2 : List Char) :
    Option TleRow × Bool :=
  match noradSearch line1 with
  | none => (none, false)
  | some ds =>
    let nid := natOfDigits ds
    if o.parseRaises then (none, false)
    else
      let epoch := jday_to_datetime o.jd o.fr
      if !existing.isEmpty && (nid, epoch) ∈ existing then (none, false)
      else if o.sgpError ≠ 0 then
        (some { norad_id := nid, epoch := epoch,
                tle_line1 := line1, tle_line2 := line2,
                altitude_km := none, x := none, y := none, z := none,
                velocity_kms := none, vx := none, vy := none, vz := none },
         true)
      else
        let (px, py, pz) := o.pos
        let rNorm := sqrtFn (px ^ 2 + py ^ 2 + pz ^ 2)
        let altitude := rNorm - 6371
        let (qx, qy, qz) := o.vel
        let velMag := roundTo (sqrtFn (qx ^ 2 + qy ^ 2 + qz ^ 2)) 4
        (some { norad_id := nid, epoch := epoch,
                tle_line1 := line1, tle_line2 := line2,
                altitude_km := some (roundTo altitude 2),
                x := some (roundTo px 4), y := some (roundTo py 4),
                z := some (roundTo pz 4),
                velocity_kms := some velMag,
                vx := some (roundTo qx 4), vy := some (roundTo qy 4),
                vz := some (roundTo qz 4) },
         true)

/-! ## RateLimitedBatchFetcher and SessionManager
(`TLE_Fetch.py` lines 59–90 and 122–167)

Network traffic is an oracle: a script of `NetEvent`s consumed in order,
one per HTTP call.  Each issued call is recorded as a `Req` carrying the
timeout actually passed to `requests` at that call site. -/

/-- Outcome of one HTTP call: a response, a `ConnectionError`/`Timeout`,
or another `RequestException`. -/
inductive NetEvent where
  | resp (status : Nat) (text : List Char)
  | connErr
  | reqErr
  deriving DecidableEq, Repr

/-- The four request-issuing call sites. -/
inductive ReqKind where
  /-- `session.get(tle_url, timeout=30)`, line 134. -/
  | primaryData
  /-- the post-re-login `session.get(tle_url)`, line 152. -/
  | retryData
  /-- the probe `session.get(test_url)` in `check_session_valid`, line 62. -/
  | probe
  /-- the credentials `session.post(LOGIN_URL, ...)`, line 83. -/
  | loginPost
  deriving DecidableEq, Repr

/-- An issued request together with the timeout passed to `requests`
(`none` = no timeout argument). -/
structure Req where
  kind : ReqKind
  timeout : Option Nat
  deriving DecidableEq, Repr

/-- How a modelled call returns to its caller: normally, via `sys.exit`,
or by raising a (connection / other request) exception. -/
inductive CallResult where
  | ok
  | exited (code : Nat)
  | raisedConn
  | raisedReq
  deriving DecidableEq, Repr

/-- The `session.post(LOGIN_URL, ...)` half of `login` (lines 82–90):
status 200 saves cookies and returns, anything else is `sys.exit(1)`;
exceptions propagate to the caller.  An exhausted script models a
network-level failure. -/
def postLoginModel (evs : List NetEvent) :
    CallResult × List Req × List NetEvent :=
  match evs with
  | NetEvent.resp 200 _ :: rest => (CallResult.ok, [⟨ReqKind.loginPost, none⟩], rest)
  | NetEvent.resp _ _ :: rest => (CallResult.exited 1, [⟨ReqKind.loginPost, none⟩], rest)
  | NetEvent.connErr :: rest => (CallResult.raisedConn, [⟨ReqKind.loginPost, none⟩], rest)
  | NetEvent.reqErr :: rest => (CallResult.raisedReq, [⟨ReqKind.loginPost, none⟩], rest)
  | [] => (CallResult.raisedConn, [⟨ReqKind.loginPost, none⟩], [])

/-- `login(force)` (lines 71–90).  When not forced it first probes via
`check_session_valid` (lines 59–69, `session.get(test_url)` with no
timeout); a 200 probe response returns without re-authenticating. -/
def loginModel (force : Bool) (evs : List NetEvent) :
    CallResult × List Req × List NetEvent :=
  if force then postLoginModel evs
  else
    match evs with
    | NetEvent.resp 200 _ :: rest => (CallResult.ok, [⟨ReqKind.probe, none⟩], rest)
    | NetEvent.resp _ _ :: rest =>
      let r := postLoginModel rest
      (r.1, ⟨ReqKind.probe, none⟩ :: r.2.1, r.2.2)
    | NetEvent.connErr :: rest => (CallResult.raisedConn, [⟨ReqKind.probe, none⟩], rest)
    | NetEvent.reqErr :: rest => (CallResult.raisedReq, [⟨ReqKind.probe, none⟩], rest)
    | [] => (CallResult.raisedConn, [⟨ReqKind.probe, none⟩], [])

/-- The throttle body marker, the text Too Many Requests. -/
def throttleMarker : List Char := "Too Many Requests".toList

/-- The session-expired body marker, the text alert-danger. -/
def alertMarker : List Char := "alert-danger".toList

/-- What `fetch_tle_data` returns: the stripped text, `None`, or process
termination via `sys.exit`. -/
inductive FetchResult where
  | got (text : List Char)
  | noData
  | exited (code : Nat)
  deriving DecidableEq, Repr

/-- The attempt loop of `fetch_tle_data` (lines 126–167), one recursion
step per remaining attempt.  Faithful points: the throttle check (line
139) and empty check (line 144) run before the session-expired check
(line 149); the post-re-login retry `session.get(tle_url)` carries no
timeout and its response is only tested by the final
`status == 200 and len(text.strip()) > 0` (line 154); connection
errors/timeouts sleep and consume an attempt; other request exceptions
are `sys.exit(1)`; an exhausted script behaves as a connection error. -/
def fetchAux : Nat → List NetEvent → FetchResult × List Req
  | 0, _ => (FetchResult.noData, [])
  | n + 1, evs =>
    match evs with
    | [] =>
      let r := fetchAux n []
      (r.1, ⟨ReqKind.primaryData, some 30⟩ :: r.2)
    | NetEvent.connErr :: rest =>
      let r := fetchAux n rest
      (r.1, ⟨ReqKind.primaryData, some 30⟩ :: r.2)
    | NetEvent.reqErr :: _ => (FetchResult.exited 1, [⟨ReqKind.primaryData, some 30⟩])
    | NetEvent.resp s t :: rest =>
      if s = 429 || containsSub throttleMarker t then
        (FetchResult.exited 1, [⟨ReqKind.primaryData, some 30⟩])
      else if s = 204 || (pyStrip t).isEmpty then
        (FetchResult.noData, [⟨ReqKind.primaryData, some 30⟩])
      else if containsSub alertMarker t || s = 401 || s = 403 then
        match postLoginModel rest with
        | (CallResult.exited c, lreqs, _) =>
          (FetchResult.exited c, ⟨ReqKind.primaryData, some 30⟩ :: lreqs)
        | (CallResult.raisedConn, lreqs, rest2) =>
          let r := fetchAux n rest2
          (r.1, ⟨ReqKind.primaryData, some 30⟩ :: lreqs ++ r.2)
        | (CallResult.raisedReq, lreqs, _) =>
          (FetchResult.exited 1, ⟨ReqKind.primaryData, some 30⟩ :: lreqs)
        | (CallResult.ok, lreqs, rest2) =>
          match rest2 with
          | [] =>
            let r := fetchAux n []
            (r.1, ⟨ReqKind.primaryData, some 30⟩ :: lreqs ++ [⟨ReqKind.retryData, none⟩] ++ r.2)
          | NetEvent.connErr :: rest3 =>
            let r := fetchAux n rest3
            (r.1, ⟨ReqKind.primaryData, some 30⟩ :: lreqs ++ [⟨ReqKind.retryData, none⟩] ++ r.2)
          | NetEvent.reqErr :: _ =>
            (FetchResult.exited 1,
             ⟨ReqKind.primaryData, some 30⟩ :: lreqs ++ [⟨ReqKind.retryData, none⟩])
          | NetEvent.resp s2 t2 :: rest3 =>
            if s2 = 200 && !(pyStrip t2).isEmpty then
              (FetchResult.got (pyStrip t2),
               ⟨ReqKind.primaryData, some 30⟩ :: lreqs ++ [⟨ReqKind.retryData, none⟩])
            else
              let r := fetchAux n rest3
              (r.1, ⟨ReqKind.primaryData, some 30⟩ :: lreqs ++ [⟨ReqKind.retryData, none⟩] ++ r.2)
      else if s = 200 && !(pyStrip t).isEmpty then
        (FetchResult.got (pyStrip t), [⟨ReqKind.primaryData, some 30⟩])
      else
        let r := fetchAux n rest
        (r.1, ⟨ReqKind.primaryData, some 30⟩ :: r.2)

/-- `fetch_tle_data` with its default `retry_attempts=5`. -/
def fetch_tle_data (evs : List NetEvent) : FetchResult × List Req :=
  fetchAux 5 evs

/-! ## TLEPartitioner: `split_and_save_tle` and the module-level batch
loop (`TLE_Fetch.py` lines 172–199 and 213–230) -/

/-- A filesystem key: (file is in the active directory?, norad-id
string), i.e. `ORBIT_DIR/tle_{id}.txt` vs `DEORBITED_DIR/tle_{id}.txt`. -/
abbrev FileKey := Bool × List Char

/-- File contents are the ordered list of stored line pairs (the file is
their newline-joined rendering). -/
abbrev FileContent := List (List Char × List Char)

/-- The partition directories: an association list from file key to
content, in creation order. -/
abbrev FileSys := List (FileKey × FileContent)

/-- Existence test `os.path.exists` for a partition file. -/
def fsHas (fs : FileSys) (k : FileKey) : Bool :=
  fs.any (fun e => e.1 = k)

/-- File lookup (for stating what a run leaves on disk). -/
def fsGet (fs : FileSys) (k : FileKey) : Option FileContent :=
  (fs.find? (fun e => e.1 = k)).map (·.2)

/-- Opening the file in write mode followed by a full write: overwrite the entry
if present, otherwise append it. -/
def fsWrite (fs : FileSys) (k : FileKey) (c : FileContent) : FileSys :=
  match fs with
  | [] => [(k, c)]
  | e :: rest => if e.1 = k then (k, c) :: rest else e :: fsWrite rest k c

/-- `for i in range(0, len(lines), 2): if i + 1 < len(lines)`: consume
lines two at a time, dropping a trailing odd line. -/
def pairUp : List α → List (α × α)
  | a :: b :: rest => (a, b) :: pairUp rest
  | _ => []

/-- `tle_dict.setdefault(norad_id, []).append(pair)`: append to the
existing group, else create a new group at the end (dict insertion
order). -/
def insertGroup : List (List Char × FileContent) → List Char →
    (List Char × List Char) → List (List Char × FileContent)
  | [], k, v => [(k, [v])]
  | (k', vs) :: rest, k, v =>
    if k' = k then (k', vs ++ [v]) :: rest else (k', vs) :: insertGroup rest k v

/-- The grouping loop of `split_and_save_tle` (lines 181–189): keep pairs
whose lines start with the line-1 / line-2 markers and group them under
`line1.split()[1][:5]`.  (A kept pair with fewer than two tokens in
line1 would raise `IndexError` in Python and abort the call; no such
pair occurs in any statement below, and the model drops it.) -/
def buildDict (pairs : List (List Char × List Char)) :
    List (List Char × FileContent) :=
  pairs.foldl
    (fun d p =>
      if ['1', ' '].isPrefixOf p.1 && ['2', ' '].isPrefixOf p.2 then
        match partitionerId p.1 with
        | some nid => insertGroup d nid p
        | none => d
      else d)
    []

/-- `split_and_save_tle(tle_data, active_norads)` (lines 172–199): an
empty/absent text is a no-op; otherwise the file of every grouped id is
written in overwriting mode into the directory chosen by membership in
`active_norads`, overwriting whatever was there. -/
def split_and_save_tle (tleData : List Char) (activeNorads : List (List Char))
    (fs : FileSys) : FileSys :=
  if tleData.isEmpty then fs
  else
    let pairs := pairUp (splitNl (pyStrip tleData))
    (buildDict pairs).foldl
      (fun fs' g => fsWrite fs' (activeNorads.contains g.1, g.1) g.2) fs

/-- One iteration of the module-level batch loop (lines 214–230): skip
the batch iff every id in it already has a file in either directory;
otherwise fetch (the fetched text is the `tleData` oracle argument,
`none` modelling a `None` return) and, when text came back, partition
and save it.  Returns the filesystem and whether a fetch was issued. -/
def batchStep (batch : List (List Char)) (activeNorads : List (List Char))
    (tleData : Option (List Char)) (fs : FileSys) : FileSys × Bool :=
  if batch.all (fun nid => fsHas fs (true, nid) || fsHas fs (false, nid)) then
    (fs, false)
  else
    match tleData with
    | some t => (split_and_save_tle t activeNorads fs, true)
    | none => (fs, true)

/-! ## ConcurrentIngestionEngine: `chunked_insert`
(`data_input.py` lines 148–169)

The store is the ordered list of persisted `(norad_id, epoch)` keys — the
columns of the declared unique constraint `uix_norad_epoch`; the
database executor is an oracle script of per-execution faults. -/

/-- The persisted table, reduced to its conflict keys in insertion
order. -/
abbrev Store := List (Nat × DateTimeUTC)

/-- Postgres execution of `INSERT ... ON CONFLICT ON CONSTRAINT
uix_norad_epoch DO NOTHING` for one chunk: each row is inserted unless
its key is already present (including rows inserted earlier in the same
statement). -/
def execInsertDoNothing (st : Store) (chunk : List (Nat × DateTimeUTC)) : Store :=
  chunk.foldl (fun s k => if k ∈ s then s else s ++ [k]) st

/-- `records[i:i+chunk_size]` slicing of the chunk loop. -/
def chunksOf (n : Nat) (l : List α) : List (List α) :=
  if _h : l.isEmpty || n = 0 then [] else l.take n :: chunksOf n (l.drop n)
  termination_by l.length
  decreasing_by
    rcases l with _ | ⟨a, l⟩
    · simp at _h
    · simp only [List.length_drop, List.length_cons]
      simp at _h
      omega

/-- The retry loop of one chunk (lines 158–169): up to `max_retries`
execution attempts, each consuming one fault-script entry (`true` = the
execution raises); an exhausted script means no fault.  Returns the
store, the remaining script, and whether the chunk was committed. -/
def insertChunkRetry : Nat → Store → List (Nat × DateTimeUTC) → List Bool →
    Store × List Bool × Bool
  | 0, st, _, faults => (st, faults, false)
  | a + 1, st, chunk, faults =>
    match faults with
    | true :: rest => insertChunkRetry a st chunk rest
    | false :: rest => (execInsertDoNothing st chunk, rest, true)
    | [] => (execInsertDoNothing st chunk, [], true)

/-- `chunked_insert(records, chunk_size, max_retries, ...)`: insert the
records chunk by chunk; returns the store, the unconsumed fault script,
and whether every chunk committed (no chunk was abandoned). -/
def chunked_insert (records : List (Nat × DateTimeUTC)) (chunkSize maxRetries : Nat)
    (st : Store) (faults : List Bool) : Store × List Bool × Bool :=
  (chunksOf chunkSize records).foldl
    (fun acc chunk =>
      let r := insertChunkRetry maxRetries acc.1 chunk acc.2.1
      (r.1, r.2.1, acc.2.2 && r.2.2))
    (st, faults, true)

/-! ## Derived-state field patterns (for the joint-nullability claims) -/

/-- All eight derived state fields of a row are null. -/
def allStateNone (r : TleRow) : Prop :=
  r.altitude_km = none ∧ r.x = none ∧ r.y = none ∧ r.z = none ∧
  r.velocity_kms = none ∧ r.vx = none ∧ r.vy = none ∧ r.vz = none

/-- All eight derived state fields of a row are non-null. -/
def allStateSome (r : TleRow) : Prop :=
  r.altitude_km ≠ none ∧ r.x ≠ none ∧ r.y ≠ none ∧ r.z ≠ none ∧
  r.velocity_kms ≠ none ∧ r.vx ≠ none ∧ r.vy ≠ none ∧ r.vz ≠ none

end SGEmbed

namespace SGEmbed

/-! ## Claim theorems -/

/-- Evaluation of the epoch conversion at the example epoch of the claim:
`jd = 2460310`, `fr = 0.5` is unix second 1704067200, i.e.
2024-01-01T00:00:00Z. -/
theorem jdExample_eval : jday_to_datetime 2460310 (1 / 2) = ⟨2024, 1, 1, 0, 0, 0⟩ := by
  have hf : ⌊unixSecondsOfJd 2460310 (1 / 2)⌋ = 1704067200 := by
    unfold unixSecondsOfJd jdUnixEpoch
    norm_num
  unfold jday_to_datetime
  rw [hf]
  decide

/-- C1 (counterexample): the epoch conversion applied to the Julian
epoch `jd = 2460310`, `fr = 0.5` yields 2024-01-01T00:00:00Z, not the
2024-01-15T12:00:00Z stated by the claim. -/
theorem C1_example_refuted :
    jday_to_datetime 2460310 (1 / 2) = ⟨2024, 1, 1, 0, 0, 0⟩ ∧
      (⟨2024, 1, 1, 0, 0, 0⟩ : DateTimeUTC) ≠ ⟨2024, 1, 15, 12, 0, 0⟩ :=
  ⟨jdExample_eval, by decide⟩

/-- C1 (amended): every record the deriver yields carries the epoch
obtained exactly by `unix_seconds = (jd_full - 2440587.5) * 86400`
applied to the Julian epoch `jd + fr` of the propagation model; and the pair
with Julian epoch `jd = 2460310`, `fr = 0.5` derives
epoch = 2024-01-01T00:00:00Z. -/
theorem C1_epoch_conversion (o : SatOracle) (sqrtFn : ℚ → ℚ)
    (existing : List (Nat × DateTimeUTC)) (line1 line2 : List Char) (row : TleRow)
    (h : (processPair o sqrtFn existing line1 line2).1 = some row) :
    row.epoch = utcFromTimestamp ⌊unixSecondsOfJd o.jd o.fr⌋ ∧
      jday_to_datetime 2460310 (1 / 2) = ⟨2024, 1, 1, 0, 0, 0⟩ := by
  refine ⟨?_, jdExample_eval⟩
  simp only [processPair] at h
  rcases hns : noradSearch line1 with _ | ds <;> rw [hns] at h
  · simp at h
  · by_cases hp : o.parseRaises = true
    · simp [hp] at h
    · rw [Bool.not_eq_true] at hp
      rw [hp] at h
      simp only [Bool.false_eq_true, if_false] at h
      split at h
      · simp at h
      · split at h
        · rw [Prod.fst] at h
          injection h with h
          subst h
          rfl
        · rw [Prod.fst] at h
          injection h with h
          subst h
          rfl

/-- C1 (witness for the amended theorem). -/
theorem C1_epoch_conversion_witness :
    (⟨25544, jday_to_datetime 2460310 (1 / 2), "1 25544U".toList, "2 25544".toList,
       none, none, none, none, none, none, none, none⟩ : TleRow).epoch =
        utcFromTimestamp ⌊unixSecondsOfJd 2460310 (1 / 2)⌋ ∧
      jday_to_datetime 2460310 (1 / 2) = ⟨2024, 1, 1, 0, 0, 0⟩ :=
  C1_epoch_conversion ⟨false, 2460310, 1 / 2, 1, (0, 0, 0), (0, 0, 0)⟩
    id [] "1 25544U".toList "2 25544".toList _ rfl

/-- C2: every record the deriver yields with a non-zero propagator error
code has all derived state fields (x, y, z, vx, vy, vz, velocity
magnitude, altitude) null, every record with error code zero has them
all non-null, and a non-zero error code never causes the record to be
rejected — the pair is still yielded. -/
theorem C2_state_fields_joint (o : SatOracle) (sqrtFn : ℚ → ℚ)
    (existing : List (Nat × DateTimeUTC)) (line1 line2 : List Char) (ds : List Char)
    (hid : noradSearch line1 = some ds)
    (hp : o.parseRaises = false)
    (hded : (natOfDigits ds, jday_to_datetime o.jd o.fr) ∉ existing) :
    ∃ row, processPair o sqrtFn existing line1 line2 = (some row, true) ∧
      (o.sgpError ≠ 0 → allStateNone row) ∧
      (o.sgpError = 0 → allStateSome row) := by
  simp only [processPair, hid, hp, Bool.false_eq_true, if_false]
  rw [if_neg (by simp [hded])]
  by_cases he : o.sgpError = 0
  · rw [if_neg (by simp [he])]
    exact ⟨_, rfl, fun hc => absurd he hc, fun _ => by
      simp [allStateSome]⟩
  · rw [if_pos (by simp [he])]
    exact ⟨_, rfl, fun _ => by simp [allStateNone], fun hc => absurd hc he⟩

/-- C2 (witness): a concrete decayed pair (error code 6) is yielded with
all state fields null. -/
theorem C2_state_fields_joint_witness :
    ∃ row, processPair ⟨false, 2460310, 1 / 2, 6, (1, 2, 3), (4, 5, 6)⟩ id []
        "1 25544U".toList "2 25544".toList = (some row, true) ∧
      ((⟨false, 2460310, 1 / 2, 6, (1, 2, 3), (4, 5, 6)⟩ : SatOracle).sgpError ≠ 0 →
        allStateNone row) ∧
      ((⟨false, 2460310, 1 / 2, 6, (1, 2, 3), (4, 5, 6)⟩ : SatOracle).sgpError = 0 →
        allStateSome row) :=
  C2_state_fields_joint ⟨false, 2460310, 1 / 2, 6, (1, 2, 3), (4, 5, 6)⟩ id []
    "1 25544U".toList "2 25544".toList "25544".toList (by decide) rfl (by simp)

/-- C8: for a line pair whose (CatalogObjectId, epoch) is already present
in the deduplication index, derivation short-circuits — `sat.sgp4` is
never invoked and no record is produced for that pair. -/
theorem C8_dedup_short_circuit (o : SatOracle) (sqrtFn : ℚ → ℚ)
    (existing : List (Nat × DateTimeUTC)) (line1 line2 : List Char) (ds : List Char)
    (hid : noradSearch line1 = some ds)
    (hp : o.parseRaises = false)
    (hmem : (natOfDigits ds, jday_to_datetime o.jd o.fr) ∈ existing) :
    processPair o sqrtFn existing line1 line2 = (none, false) := by
  simp only [processPair, hid, hp, Bool.false_eq_true, if_false]
  rw [if_pos]
  simp only [Bool.and_eq_true, Bool.not_eq_true', decide_eq_true_eq]
  exact ⟨List.isEmpty_eq_false_iff_exists_mem.mpr ⟨_, hmem⟩, hmem⟩

/-- C8 (witness): with the pair (25544, epoch of jd 2460310 + 0.5)
already indexed, the concrete pair is skipped without propagation. -/
theorem C8_dedup_short_circuit_witness :
    processPair ⟨false, 2460310, 1 / 2, 0, (1, 2, 3), (4, 5, 6)⟩ id
        [(25544, jday_to_datetime 2460310 (1 / 2))]
        "1 25544U".toList "2 25544".toList = (none, false) :=
  C8_dedup_short_circuit ⟨false, 2460310, 1 / 2, 0, (1, 2, 3), (4, 5, 6)⟩ id
    [(25544, jday_to_datetime 2460310 (1 / 2))]
    "1 25544U".toList "2 25544".toList "25544".toList (by decide) rfl
    (by
      have hn : natOfDigits ['2', '5', '5', '4', '4'] = 25544 := by decide
      simp [hn])

/-- The login POST always issues exactly one request, with no timeout. -/
theorem postLoginModel_trace (evs : List NetEvent) :
    (postLoginModel evs).2.1 = [⟨ReqKind.loginPost, none⟩] := by
  unfold postLoginModel
  split <;> rfl

/-- C5 (counterexample): a 401 response with a blank body carries a
session-expired signal by status, yet the fetcher classifies it as empty
first: it returns `None` after a single request and never re-logs-in. -/
theorem C5_blank401_no_relogin :
    fetch_tle_data [NetEvent.resp 401 []] =
      (FetchResult.noData, [⟨ReqKind.primaryData, some 30⟩]) ∧
      (fetch_tle_data [NetEvent.resp 401 []]).2.countP
          (fun r => r.kind = ReqKind.loginPost) = 0 := by
  decide

/-- C5 (amended): if the primary response of an attempt carries a
session-expired signal (auth-failure marker in the body or status
401/403) and is not first classified as throttled (429 / marker) or
empty (204 / blank body), the fetcher forces exactly one re-login and
retries the same request once within the same attempt; on success of
the retried request its stripped text is returned — with the same
request trace whatever the number of remaining attempts, so no
additional attempt slot is consumed. -/
theorem C5_relogin_retry_once (n s : Nat) (t lt good : List Char)
    (rest : List NetEvent)
    (hsig : containsSub alertMarker t = true ∨ s = 401 ∨ s = 403)
    (hth : s ≠ 429) (hthm : containsSub throttleMarker t = false)
    (hte : s ≠ 204) (hne : (pyStrip t).isEmpty = false)
    (hgood : (pyStrip good).isEmpty = false) :
    fetchAux (n + 1)
        (NetEvent.resp s t :: NetEvent.resp 200 lt :: NetEvent.resp 200 good :: rest) =
      (FetchResult.got (pyStrip good),
       [⟨ReqKind.primaryData, some 30⟩, ⟨ReqKind.loginPost, none⟩,
        ⟨ReqKind.retryData, none⟩]) := by
  simp only [fetchAux]
  rw [if_neg (by simp [hth, hthm]), if_neg (by simp [hte, hne]),
    if_pos (by rcases hsig with h | h | h <;> simp [h])]
  simp only [postLoginModel]
  rw [if_pos (by simp [hgood])]
  simp

/-- C5 (witness). -/
theorem C5_relogin_retry_once_witness :
    fetchAux (0 + 1)
        [NetEvent.resp 401 ['x'], NetEvent.resp 200 [], NetEvent.resp 200 ['T']] =
      (FetchResult.got (pyStrip ['T']),
       [⟨ReqKind.primaryData, some 30⟩, ⟨ReqKind.loginPost, none⟩,
        ⟨ReqKind.retryData, none⟩]) :=
  C5_relogin_retry_once 0 401 ['x'] [] ['T'] []
    (Or.inr (Or.inl rfl)) (by decide) (by decide) (by decide) (by decide) (by decide)

/-- C6 (counterexample): when the session-expired branch retries the
request after re-login, the retried response is only tested for
`status == 200 and non-empty`; a 429 response whose body is the throttle
marker at that point neither terminates the process nor stops further
HTTP calls — the fetcher goes on to exhaust its attempts (four more
primary requests) and returns `None`. -/
theorem C6_retry_response_not_throttle_checked :
    fetch_tle_data
        [NetEvent.resp 200 "x alert-danger x".toList,
         NetEvent.resp 200 "ok".toList,
         NetEvent.resp 429 "Too Many Requests".toList] =
      (FetchResult.noData,
       [⟨ReqKind.primaryData, some 30⟩, ⟨ReqKind.loginPost, none⟩,
        ⟨ReqKind.retryData, none⟩, ⟨ReqKind.primaryData, some 30⟩,
        ⟨ReqKind.primaryData, some 30⟩, ⟨ReqKind.primaryData, some 30⟩,
        ⟨ReqKind.primaryData, some 30⟩]) ∧
      FetchResult.noData ≠ FetchResult.exited 1 := by
  decide

/-- C6 (amended): any response to the per-attempt primary request with
status 429 or the throttle marker in its body terminates the process
immediately with exit status 1, after that single HTTP call, regardless
of remaining retry attempts.  (The post-re-login retry response is not
throttle-checked; see the counterexample.) -/
theorem C6_primary_throttle_exits (n s : Nat) (t : List Char) (rest : List NetEvent)
    (h : s = 429 ∨ containsSub throttleMarker t = true) :
    fetchAux (n + 1) (NetEvent.resp s t :: rest) =
      (FetchResult.exited 1, [⟨ReqKind.primaryData, some 30⟩]) := by
  simp only [fetchAux]
  rw [if_pos (by rcases h with h | h <;> simp [h])]

/-- C6 (witness). -/
theorem C6_primary_throttle_exits_witness :
    fetchAux (4 + 1) [NetEvent.resp 429 [], NetEvent.resp 200 ['x']] =
      (FetchResult.exited 1, [⟨ReqKind.primaryData, some 30⟩]) :=
  C6_primary_throttle_exits 4 429 [] [NetEvent.resp 200 ['x']] (Or.inl rfl)

/-- C10: the fetcher returns the identical value `None` both for a
no-content response (status 204 or blank body — after a single request,
no retry) and after all 5 attempts are exhausted, so the caller cannot
distinguish an empty batch from a failed one; in both cases the batch
loop leaves the filesystem untouched (the batch is skipped). -/
theorem C10_none_indistinguishable :
    fetch_tle_data [NetEvent.resp 204 []] =
      (FetchResult.noData, [⟨ReqKind.primaryData, some 30⟩]) ∧
      fetch_tle_data (List.replicate 5 (NetEvent.resp 500 ['x'])) =
        (FetchResult.noData, List.replicate 5 ⟨ReqKind.primaryData, some 30⟩) ∧
      ∀ batch active fs, (batchStep batch active none fs).1 = fs := by
  refine ⟨by decide, by decide, ?_⟩
  intro batch active fs
  unfold batchStep
  split <;> rfl

/-- C3 (counterexample): a per-id output file that already exists is
overwritten, not skipped, when the batch containing that id also
contains an id with no file yet: with `tle_25544.txt` already
materialized from an earlier run, re-running the batch [25544, 99999]
replaces the old file content with the newly fetched one. -/
theorem C3_existing_file_overwritten :
    fsHas [((true, "25544".toList),
        [("1 25544U OLD".toList, "2 25544 OLD".toList)])] (true, "25544".toList) = true ∧
      batchStep ["25544".toList, "99999".toList] ["25544".toList]
          (some "1 25544U NEW\n2 25544 NEW".toList)
          [((true, "25544".toList), [("1 25544U OLD".toList, "2 25544 OLD".toList)])] =
        ([((true, "25544".toList), [("1 25544U NEW".toList, "2 25544 NEW".toList)])],
         true) ∧
      [("1 25544U NEW".toList, "2 25544 NEW".toList)] ≠
        [("1 25544U OLD".toList, "2 25544 OLD".toList)] := by
  decide

/-- C3 (amended): the resume/skip guarantee is batch-level, not per-id:
a batch is skipped — filesystem untouched, no fetch issued — exactly
when every id in the batch already has its per-id file in one of the
two partitions; when any id in the batch lacks a file, the batch is
re-fetched and `split_and_save_tle` rewrites (overwriting open mode) the file of
every id present in the fetched text, overwriting pre-existing
content. -/
theorem C3_batch_level_skip (batch active : List (List Char))
    (td : Option (List Char)) (fs : FileSys)
    (h : batch.all (fun nid => fsHas fs (true, nid) || fsHas fs (false, nid)) = true) :
    batchStep batch active td fs = (fs, false) := by
  unfold batchStep
  rw [if_pos h]

/-- C3 (witness): a batch whose single id already has a file is
skipped. -/
theorem C3_batch_level_skip_witness :
    batchStep ["25544".toList] [] (some "1 25544U NEW\n2 25544 NEW".toList)
        [((false, "25544".toList), [])] =
      ([((false, "25544".toList), [])], false) :=
  C3_batch_level_skip ["25544".toList] [] (some "1 25544U NEW\n2 25544 NEW".toList)
    [((false, "25544".toList), [])] (by decide)

/-- Every request the fetcher issues carries the timeout of its call
site: 30 s on the per-attempt primary request, and none on the
post-re-login retry and the login POST. -/
theorem fetchAux_trace_timeout (n : Nat) (evs : List NetEvent) :
    ∀ r ∈ (fetchAux n evs).2,
      r.timeout = if r.kind = ReqKind.primaryData then some 30 else none := by
  induction n generalizing evs with
  | zero => intro r hr; simp [fetchAux] at hr
  | succ n ih =>
    intro r hr
    rcases evs with _ | ⟨e, rest⟩
    · simp only [fetchAux, List.mem_cons] at hr
      rcases hr with rfl | hr
      · rfl
      · exact ih [] r hr
    · cases e with
      | connErr =>
        simp only [fetchAux, List.mem_cons] at hr
        rcases hr with rfl | hr
        · rfl
        · exact ih rest r hr
      | reqErr =>
        simp only [fetchAux, List.mem_cons, List.not_mem_nil, or_false] at hr
        subst hr; rfl
      | resp s t =>
        simp only [fetchAux] at hr
        split at hr
        · simp only [List.mem_cons, List.not_mem_nil, or_false] at hr
          subst hr; rfl
        · split at hr
          · simp only [List.mem_cons, List.not_mem_nil, or_false] at hr
            subst hr; rfl
          · split at hr
            · rcases hpl : postLoginModel rest with ⟨cr, lreqs, rest2⟩
              rw [hpl] at hr
              have hl : lreqs = [⟨ReqKind.loginPost, none⟩] := by
                have h2 := postLoginModel_trace rest
                rw [hpl] at h2
                exact h2
              subst hl
              cases cr with
              | exited c =>
                simp only [List.mem_cons, List.not_mem_nil, or_false, or_assoc] at hr
                rcases hr with rfl | rfl <;> rfl
              | raisedConn =>
                simp only [List.mem_cons, List.mem_append, List.mem_singleton,
                  List.not_mem_nil, or_false, or_assoc] at hr
                rcases hr with rfl | rfl | hr
                · rfl
                · rfl
                · exact ih rest2 r hr
              | raisedReq =>
                simp only [List.mem_cons, List.not_mem_nil, or_false, or_assoc] at hr
                rcases hr with rfl | rfl <;> rfl
              | ok =>
                simp only [] at hr
                rcases rest2 with _ | ⟨e2, rest3⟩
                · simp only [List.mem_cons, List.mem_append, List.mem_singleton,
                    List.not_mem_nil, or_false, or_assoc] at hr
                  rcases hr with rfl | rfl | rfl | hr
                  · rfl
                  · rfl
                  · rfl
                  · exact ih [] r hr
                · cases e2 with
                  | connErr =>
                    simp only [List.mem_cons, List.mem_append, List.mem_singleton,
                      List.not_mem_nil, or_false, or_assoc] at hr
                    rcases hr with rfl | rfl | rfl | hr
                    · rfl
                    · rfl
                    · rfl
                    · exact ih rest3 r hr
                  | reqErr =>
                    simp only [List.mem_cons, List.mem_append, List.mem_singleton,
                      List.not_mem_nil, or_false, or_assoc] at hr
                    rcases hr with rfl | rfl | rfl <;> rfl
                  | resp s2 t2 =>
                    simp only [] at hr
                    split at hr
                    · simp only [List.mem_cons, List.mem_append, List.mem_singleton,
                        List.not_mem_nil, or_false, or_assoc] at hr
                      rcases hr with rfl | rfl | rfl <;> rfl
                    · simp only [List.mem_cons, List.mem_append, List.mem_singleton,
                        List.not_mem_nil, or_false, or_assoc] at hr
                      rcases hr with rfl | rfl | rfl | hr
                      · rfl
                      · rfl
                      · rfl
                      · exact ih rest3 r hr
            · split at hr
              · simp only [List.mem_cons, List.not_mem_nil, or_false] at hr
                subst hr; rfl
              · simp only [List.mem_cons] at hr
                rcases hr with rfl | hr
                · rfl
                · exact ih rest r hr

/-- An ASCII digit is not whitespace. -/
theorem digit_not_ws {c : Char} (h : isDigitC c = true) : isWsC c = false := by
  simp only [isDigitC, Bool.or_eq_true, decide_eq_true_eq] at h
  rcases h with ((((((((h | h) | h) | h) | h) | h) | h) | h) | h) | h <;> subst h <;> rfl

/-- First token of `pySplitAux` with a nonempty accumulator: the
accumulator extended by the leading non-whitespace run. -/
theorem pySplitAux_head (tl : List Char) :
    ∀ acc : List Char, acc ≠ [] →
      (pySplitAux tl acc).head? =
        some (acc.reverse ++ tl.takeWhile (fun c => !isWsC c)) := by
  induction tl with
  | nil =>
    intro acc hacc
    simp [pySplitAux, List.isEmpty_eq_true, hacc]
  | cons c cs ih =>
    intro acc hacc
    by_cases hw : isWsC c = true
    · simp [pySplitAux, hw, List.isEmpty_eq_true, hacc, List.takeWhile_cons]
    · rw [Bool.not_eq_true] at hw
      simp only [pySplitAux, hw, Bool.false_eq_true, if_false]
      rw [ih (c :: acc) (by simp), List.takeWhile_cons]
      simp [hw]

/-- Pushing a non-whitespace prefix into the accumulator. -/
theorem pySplitAux_push (ds : List Char) (h : ds.all (fun c => !isWsC c) = true) :
    ∀ tl acc : List Char, pySplitAux (ds ++ tl) acc = pySplitAux tl (ds.reverse ++ acc) := by
  induction ds with
  | nil => intro tl acc; simp
  | cons c cs ih =>
    intro tl acc
    simp only [List.all_cons, Bool.and_eq_true, Bool.not_eq_true'] at h
    rw [List.cons_append]
    rw [show pySplitAux (c :: (cs ++ tl)) acc = pySplitAux (cs ++ tl) (c :: acc) from by
      simp [pySplitAux, h.1]]
    rw [ih h.2 tl (c :: acc)]
    simp

/-- `takeWhile isDigitC` over an all-digit prefix followed by a
digit-free continuation. -/
theorem takeWhile_digits_append (ds : List Char) :
    ∀ tl : List Char, ds.all isDigitC = true → tl.takeWhile isDigitC = [] →
      (ds ++ tl).takeWhile isDigitC = ds := by
  induction ds with
  | nil => intro tl _ htl; simpa using htl
  | cons c cs ih =>
    intro tl h htl
    simp only [List.all_cons, Bool.and_eq_true] at h
    simp only [List.cons_append, List.takeWhile_cons, h.1, if_true]
    rw [ih tl h.2 htl]

/-- C4 (counterexample): on the historical space-padded form of a TLE
line 1 (catalog number right-justified in its column with spaces) the
two extraction rules disagree: the partitioner
token-splitting rule yields the non-numeric token 5U, while the
deriver regex (literal 1, space, digit run) finds no match at all, so the pair is
skipped — the extracted ids are not equal, and neither rule is the
fixed-character-range rule (which reads the space-padded 5 from columns 3–7). -/
theorem C4_extraction_rules_disagree :
    partitionerId
        "1     5U 58002B   24005.50000000  .00000000  00000-0  00000-0 0     8".toList =
      some "5U".toList ∧
      deriverId
          "1     5U 58002B   24005.50000000  .00000000  00000-0  00000-0 0     8".toList =
        none ∧
      specFixedRangeId
          "1     5U 58002B   24005.50000000  .00000000  00000-0  00000-0 0     8".toList =
        "    5".toList ∧
      some "5U".toList ≠ (none : Option (List Char)) := by
  decide

/-- C4 (amended): on every line 1 of the shape the catalog service
emits — the two characters `1` and space followed by exactly five digits and then a non-digit or
end of line — the three extractions agree: the partitioner token rule
returns exactly the five digit characters, the deriver regex returns
their numeric value, and the five digits are precisely the fixed
character range (columns 3–7) of the line.  The two components use
different mechanisms (token split vs regex), which diverge on
space-padded catalog numbers (see the counterexample). -/
theorem C4_id_agreement_on_wellformed (l : List Char) (h : goodLine1 l = true) :
    ∃ ds, partitionerId l = some ds ∧ deriverId l = some (natOfDigits ds) ∧
      specFixedRangeId l = ds := by
  simp only [goodLine1, Bool.and_eq_true, decide_eq_true_eq] at h
  obtain ⟨⟨⟨hpre, hlen⟩, hdig⟩, hnd⟩ := h
  obtain ⟨rest, rfl⟩ : ∃ rest, l = '1' :: ' ' :: rest := by
    obtain ⟨t, ht⟩ := (List.isPrefixOf_iff_prefix.mp hpre)
    exact ⟨t, ht.symm⟩
  have hrest2 : ('1' :: ' ' :: rest).drop 2 = rest := rfl
  rw [hrest2] at hlen hdig
  have hrest7 : ('1' :: ' ' :: rest).drop 7 = rest.drop 5 := rfl
  rw [hrest7] at hnd
  refine ⟨rest.take 5, ?_, ?_, ?_⟩
  · -- partitioner: split()[1][:5]
    have hsplit : pySplit ('1' :: ' ' :: rest) = ['1'] :: pySplitAux rest [] := by
      simp [pySplit, pySplitAux, show isWsC '1' = false from rfl,
        show isWsC ' ' = true from rfl]
    have hpush := pySplitAux_push (rest.take 5)
      (by
        rw [List.all_eq_true] at hdig ⊢
        intro c hc
        simp [digit_not_ws (hdig c hc)]) (rest.drop 5) []
    rw [List.take_append_drop] at hpush
    have hne : (rest.take 5).reverse ≠ [] := by
      intro hc
      have := congrArg List.length hc
      simp [hlen] at this
    have hhead := pySplitAux_head (rest.drop 5) ((rest.take 5).reverse ++ []) (by simp [hne])
    unfold partitionerId
    rw [hsplit]
    simp only [List.getElem?_cons_succ, List.getElem?_cons_zero]
    rw [show (pySplitAux rest [])[0]? = (pySplitAux rest []).head? from
      (List.head?_eq_getElem? _).symm, hpush, hhead]
    simp only [List.append_nil, List.reverse_reverse, Option.map_some']
    rw [List.take_left' hlen]
  · -- deriver: regex 1 (\d+)
    have htl : (rest.drop 5).takeWhile isDigitC = [] := by
      rcases hd5 : rest.drop 5 with _ | ⟨c, cs⟩
      · rfl
      · rw [hd5] at hnd
        simp only [List.take_succ_cons, List.take_zero, List.all_cons, List.all_nil,
          Bool.and_true, Bool.not_eq_true'] at hnd
        rw [List.takeWhile_cons]
        simp [hnd]
    rcases ht5 : rest.take 5 with _ | ⟨d, ds'⟩
    · rw [ht5] at hlen; simp at hlen
    · have hrest : rest = d :: (ds' ++ rest.drop 5) := by
        conv_lhs => rw [← List.take_append_drop 5 rest]
        rw [ht5]
        simp
      rw [ht5] at hdig
      simp only [List.all_cons, Bool.and_eq_true] at hdig
      unfold deriverId
      rw [hrest]
      simp only [noradSearch, hdig.1, if_true]
      rw [takeWhile_digits_append ds' (rest.drop 5) hdig.2 htl]
      rfl
  · -- fixed character range, columns 3–7
    unfold specFixedRangeId
    rfl

/-- One-step unfolding of the conflict-skipping insert. -/
theorem execInsert_cons (st : Store) (k : Nat × DateTimeUTC)
    (ks : List (Nat × DateTimeUTC)) :
    execInsertDoNothing st (k :: ks) =
      execInsertDoNothing (if k ∈ st then st else st ++ [k]) ks := rfl

/-- A conflict-skipping insert of keys without internal duplicates grows
the store by exactly the number of keys not already present. -/
theorem execInsert_length (chunk : List (Nat × DateTimeUTC)) :
    ∀ st : Store, chunk.Nodup →
      (execInsertDoNothing st chunk).length =
        st.length + chunk.countP (fun k => !decide (k ∈ st)) := by
  induction chunk with
  | nil => intro st _; simp [execInsertDoNothing]
  | cons k ks ih =>
    intro st hnd
    rw [List.nodup_cons] at hnd
    rw [execInsert_cons, List.countP_cons]
    by_cases hm : k ∈ st
    · rw [if_pos hm, ih st hnd.2]
      simp [hm]
    · rw [if_neg hm, ih (st ++ [k]) hnd.2]
      have hc : ks.countP (fun k2 => !decide (k2 ∈ st ++ [k])) =
          ks.countP (fun k2 => !decide (k2 ∈ st)) := by
        apply List.countP_congr
        intro x hx
        have hxk : x ≠ k := fun hcontr => hnd.1 (hcontr ▸ hx)
        simp [List.mem_append, hxk]
      rw [hc]
      have hk : (!decide (k ∈ st)) = true := by simp [hm]
      rw [hk]
      simp only [List.length_append, List.length_singleton, if_true]
      omega

/-- Re-joining the `records[i:i+chunk_size]` slices gives back the
records. -/
theorem chunksOf_flatten (n : Nat) (hn : n ≠ 0) :
    ∀ (m : Nat) (l : List (Nat × DateTimeUTC)), l.length ≤ m →
      (chunksOf n l).flatten = l := by
  intro m
  induction m with
  | zero =>
    intro l hl
    have h0 : l = [] := List.eq_nil_of_length_eq_zero (Nat.le_zero.mp hl)
    subst h0
    rw [chunksOf]
    simp
  | succ m ih =>
    intro l hl
    rw [chunksOf]
    split
    · rename_i hcond
      simp only [Bool.or_eq_true, decide_eq_true_eq] at hcond
      rcases hcond with hcond | hcond
      · rw [List.isEmpty_iff] at hcond
        simp [hcond]
      · exact absurd hcond hn
    · rename_i hcond
      rw [List.flatten_cons]
      rw [ih (l.drop n) ?_]
      · exact List.take_append_drop n l
      · simp only [Bool.or_eq_true, decide_eq_true_eq, not_or] at hcond
        have h1 : l ≠ [] := by
          intro h0
          exact hcond.1 (by simp [h0])
        have h2 : 0 < l.length := List.length_pos.mpr h1
        have h3 : n ≠ 0 := hcond.2
        rw [List.length_drop]
        omega

/-- With a fault-free executor, every chunk commits on its first
attempt and the whole chunked insert is the plain sequence of
conflict-skipping inserts. -/
theorem chunked_insert_no_faults (records : List (Nat × DateTimeUTC))
    (chunkSize m : Nat) (st : Store) :
    chunked_insert records chunkSize (m + 1) st [] =
      ((chunksOf chunkSize records).foldl execInsertDoNothing st, [], true) := by
  unfold chunked_insert
  generalize chunksOf chunkSize records = chunks
  induction chunks generalizing st with
  | nil => rfl
  | cons c cs ih =>
    rw [List.foldl_cons, List.foldl_cons]
    exact ih (execInsertDoNothing st c)

/-- Folding conflict-skipping inserts over chunks equals one insert of
the concatenation. -/
theorem foldl_execInsert (chunks : List (List (Nat × DateTimeUTC))) :
    ∀ st : Store, chunks.foldl execInsertDoNothing st =
      execInsertDoNothing st chunks.flatten := by
  induction chunks with
  | nil => intro st; rfl
  | cons c cs ih =>
    intro st
    rw [List.foldl_cons, ih, List.flatten_cons]
    unfold execInsertDoNothing
    rw [List.foldl_append]

/-- C7: a chunked insert of records with pairwise-distinct
(CatalogObjectId, epoch) keys of which exactly one duplicates an
already-persisted key inserts the other N−1 rows and raises no error:
conflicts on the (norad_id, epoch) uniqueness constraint are silently
discarded (every chunk commits). -/
theorem C7_conflict_rows_discarded (records : List (Nat × DateTimeUTC)) (st : Store)
    (hnd : records.Nodup)
    (hone : records.countP (fun k => decide (k ∈ st)) = 1) :
    (chunked_insert records 100 3 st []).1.length = st.length + (records.length - 1) ∧
      (chunked_insert records 100 3 st []).2.2 = true := by
  have hrw : chunked_insert records 100 3 st [] = (execInsertDoNothing st records, [], true) := by
    rw [show (3 : Nat) = 2 + 1 from rfl, chunked_insert_no_faults, foldl_execInsert,
      chunksOf_flatten 100 (by decide) records.length records le_rfl]
  rw [hrw]
  refine ⟨?_, rfl⟩
  rw [execInsert_length records st hnd]
  have hsplit := List.length_eq_countP_add_countP (fun k => decide (k ∈ st)) records
  have hcc : records.countP
        (fun a => decide ¬((fun k => decide (k ∈ st)) a = true)) =
      records.countP (fun k => !decide (k ∈ st)) := by
    apply List.countP_congr
    intro x _
    simp
  rw [hcc, hone] at hsplit
  omega

/-- C7 (witness): three records, one of them already persisted — two
rows inserted, every chunk committed. -/
theorem C7_conflict_rows_discarded_witness :
    (chunked_insert
        [(1, ⟨2024, 1, 1, 0, 0, 0⟩), (2, ⟨2024, 1, 2, 0, 0, 0⟩),
         (3, ⟨2024, 1, 3, 0, 0, 0⟩)] 100 3 [(1, ⟨2024, 1, 1, 0, 0, 0⟩)] []).1.length =
      ([(1, ⟨2024, 1, 1, 0, 0, 0⟩)] : Store).length +
        (([(1, ⟨2024, 1, 1, 0, 0, 0⟩), (2, ⟨2024, 1, 2, 0, 0, 0⟩),
           (3, ⟨2024, 1, 3, 0, 0, 0⟩)] : List (Nat × DateTimeUTC)).length - 1) ∧
      (chunked_insert
        [(1, ⟨2024, 1, 1, 0, 0, 0⟩), (2, ⟨2024, 1, 2, 0, 0, 0⟩),
         (3, ⟨2024, 1, 3, 0, 0, 0⟩)] 100 3 [(1, ⟨2024, 1, 1, 0, 0, 0⟩)] []).2.2 = true :=
  C7_conflict_rows_discarded
    [(1, ⟨2024, 1, 1, 0, 0, 0⟩), (2, ⟨2024, 1, 2, 0, 0, 0⟩), (3, ⟨2024, 1, 3, 0, 0, 0⟩)]
    [(1, ⟨2024, 1, 1, 0, 0, 0⟩)] (by decide) (by decide)

/-- C4 (witness): agreement on a standard zero-padding-free line 1. -/
theorem C4_id_agreement_on_wellformed_witness :
    ∃ ds, partitionerId "1 25544U 98067A".toList = some ds ∧
      deriverId "1 25544U 98067A".toList = some (natOfDigits ds) ∧
      specFixedRangeId "1 25544U 98067A".toList = ds :=
  C4_id_agreement_on_wellformed "1 25544U 98067A".toList (by decide)

/-- C9 (counterexample): in a concrete run the post-re-login retry
request and the session probe are issued with no timeout at all —
not every network request is bounded by the 30-second timeout. -/
theorem C9_untimed_requests_exist :
    (fetch_tle_data
        [NetEvent.resp 200 "x alert-danger x".toList,
         NetEvent.resp 200 "ok".toList,
         NetEvent.resp 200 "TLEDATA".toList]).2 =
      [⟨ReqKind.primaryData, some 30⟩, ⟨ReqKind.loginPost, none⟩,
       ⟨ReqKind.retryData, none⟩] ∧
      (loginModel false [NetEvent.resp 200 []]).2.1 = [⟨ReqKind.probe, none⟩] ∧
      (none : Option Nat) ≠ some 30 := by
  decide

/-- C9 (amended): only the per-attempt primary batch request carries the
30-second timeout; every other request the fetcher or the session
manager issues (the login POST, the session probe, and the
post-re-login retry) is issued with no timeout. -/
theorem C9_timeout_by_call_site (n : Nat) (evs evs2 : List NetEvent) (force : Bool) :
    (∀ r ∈ (fetchAux n evs).2,
        r.timeout = if r.kind = ReqKind.primaryData then some 30 else none) ∧
      ∀ r ∈ (loginModel force evs2).2.1, r.timeout = none := by
  refine ⟨fetchAux_trace_timeout n evs, ?_⟩
  intro r hr
  unfold loginModel at hr
  split at hr
  · rw [postLoginModel_trace] at hr
    simp only [List.mem_singleton] at hr
    subst hr; rfl
  · split at hr <;>
      simp only [postLoginModel_trace, List.mem_cons, List.mem_singleton,
        List.not_mem_nil, or_false] at hr
    · subst hr; rfl
    · rcases hr with rfl | rfl <;> rfl
    · subst hr; rfl
    · subst hr; rfl
    · subst hr; rfl

/-- C9 (witness): the retry request of a concrete run indeed reports no
timeout. -/
theorem C9_timeout_by_call_site_witness :
    (⟨ReqKind.retryData, none⟩ : Req).timeout =
      (if (⟨ReqKind.retryData, none⟩ : Req).kind = ReqKind.primaryData
        then some 30 else none) :=
  (C9_timeout_by_call_site 5
      [NetEvent.resp 200 "x alert-danger x".toList,
       NetEvent.resp 200 "ok".toList,
       NetEvent.resp 200 "TLEDATA".toList] [] false).1
    ⟨ReqKind.retryData, none⟩ (by decide)

end SGEmbed
